import Mathlib

/-!
Verification of the Catfish Slack bot (src/index.js): a shallow embedding of
its pure logic and event handlers, with theorems checking the natural-language
specification's claims against the code.

Effectful steps (Slack/CRM calls, the filesystem, the clock) are modelled by
explicit environment records carrying each call's result, and each handler is
a pure function from such an environment to the list of outward actions it
performs (plus the updated dedupe map where it mutates one).
-/

namespace Catfish

/-! ## JS string / truthiness helpers -/

/-- JS string coercion of a possibly-undefined string value: template literals
and `String.prototype.includes` render `undefined` as the literal text
"undefined". -/
def jsToStr : Option String → String
  | none => "undefined"
  | some s => s

/-- JS `a || b` on a possibly-undefined string `a`: the empty string is falsy. -/
def jsOrStr (a : Option String) (b : String) : String :=
  match a with
  | none => b
  | some s => if s = "" then b else s

/-- Whether `pat` is a prefix of `l` (character-exact). -/
def listStartsWith : List Char → List Char → Bool
  | [], _ => true
  | _ :: _, [] => false
  | p :: ps, c :: cs => p = c && listStartsWith ps cs

/-- Whether `pat` occurs contiguously anywhere in `l` (JS `includes`). -/
def listContains (pat : List Char) : List Char → Bool
  | [] => listStartsWith pat []
  | c :: cs => listStartsWith pat (c :: cs) || listContains pat cs

/-- The whitespace class trimmed by JS `String.prototype.trim` (the common
ASCII subset actually reachable in these strings). -/
def isWhite (c : Char) : Bool :=
  c = ' ' || c = '\n' || c = '\t' || c = '\r'

/-- JS `trim`: drop whitespace from both ends. -/
def jsTrimList (l : List Char) : List Char :=
  ((l.dropWhile isWhite).reverse.dropWhile isWhite).reverse

/-- JS `trim` on a `String`. -/
def jsTrimS (s : String) : String :=
  String.mk (jsTrimList s.data)

/-- The global hyphen-to-space replace applied to the channel name at
src/index.js:190. -/
def replaceHyphens (s : String) : String :=
  String.mk (s.data.map fun c => if c = '-' then ' ' else c)

/-! ## Identifier Resolver — `extractDealIdFromChannelName` (src/index.js:60) -/

/-- The greedy `\d+` step of the regex: the maximal leading digit run. -/
def takeDigits : List Char → List Char
  | [] => []
  | c :: cs => if c.isDigit then c :: takeDigits cs else []

/-- Attempt to match `/deal(\d+)/i` anchored at the head of the list:
a case-insensitive literal "deal" followed by at least one digit; returns
the (maximal) captured digit run. -/
def isDealAt : List Char → Option (List Char)
  | d :: e :: a :: l :: rest =>
    if d.toLower = 'd' ∧ e.toLower = 'e' ∧ a.toLower = 'a' ∧ l.toLower = 'l'
        ∧ takeDigits rest ≠ [] then
      some (takeDigits rest)
    else none
  | _ => none

/-- The regex engine's left-to-right scan: first position where the whole
pattern matches wins. -/
def findDeal : List Char → Option (List Char)
  | [] => none
  | c :: cs =>
    match isDealAt (c :: cs) with
    | some ds => some ds
    | none => findDeal cs

/-- `extractDealIdFromChannelName` (src/index.js:60-63): `name.match(/deal(\d+)/i)`,
returning the captured digit run or null. -/
def extractDealIdFromChannelName (name : String) : Option String :=
  match findDeal name.data with
  | some ds => some (String.mk ds)
  | none => none

/-- Declarative occurrence of the deal pattern: `l` contains a
case-insensitive "deal" immediately followed by the nonempty digit run `r`. -/
def DealOccur (l : List Char) (r : List Char) : Prop :=
  ∃ p d e a lc s, l = p ++ [d, e, a, lc] ++ r ++ s
    ∧ d.toLower = 'd' ∧ e.toLower = 'e' ∧ a.toLower = 'a' ∧ lc.toLower = 'l'
    ∧ r ≠ [] ∧ r.all Char.isDigit = true

/-! ## Ignore-Policy Evaluator (src/index.js:49-50, 154-170) -/

/-- Head-anchored case-insensitive test for `AID:\d+` style token at this
position: "aid:" followed by a digit (input already lowercased). -/
def aidNumAt : List Char → Bool
  | 'a' :: 'i' :: 'd' :: ':' :: c :: _ => c.isDigit
  | _ => false

/-- Scan for an `AID:\d+` occurrence anywhere (input already lowercased). -/
def containsAidNum : List Char → Bool
  | [] => false
  | c :: cs => aidNumAt (c :: cs) || containsAidNum cs

/-- `IGNORE_FILE_REGEX.test` — `/^(WO_|Completed Work Order)/i` (src/index.js:49). -/
def ignoreFileRegexTest (s : String) : Bool :=
  let l := s.data.map Char.toLower
  listStartsWith "wo_".data l || listStartsWith "completed work order".data l

/-- `IGNORE_COMMENT_REGEX.test` — `/(Completed Work Order|AID:\d+)/i` (src/index.js:50). -/
def ignoreCommentRegexTest (s : String) : Bool :=
  let l := s.data.map Char.toLower
  listContains "completed work order".data l || containsAidNum l

/-- Slack file metadata as the handler reads it (src/index.js fields of
`info.file`). Absent JS fields are `none`. -/
structure FileMetadata where
  name : String
  title : String
  filetype : String
  user : Option String
  initial_comment : Option String
  url_private_download : String
  channels : List String
  groups : List String
  sharesPublic : List String
  sharesPrivate : List String
deriving Repr, DecidableEq

/-- `DISPATCHER_BOT_USER_ID && file.user === DISPATCHER_BOT_USER_ID` (src/index.js:155). -/
def uploadedByDispatcher (dispatcherId : Option String) (file : FileMetadata) : Bool :=
  match dispatcherId with
  | some d => file.user == some d
  | none => false

/-- The verdicts of the ignore/skip checks in `handleFileShared`, in source
order (dispatcher-name, dispatcher-comment, wrong filetype, or proceed). -/
inductive IgnoreVerdict where
  | skipDispatcherFile
  | skipDispatcherComment
  | skipNonPdf
  | proceed
deriving Repr, DecidableEq

/-- The comment sub-rule as guarded in the source:
`file.initial_comment && IGNORE_COMMENT_REGEX.test(file.initial_comment)`
(src/index.js:161). -/
def commentRuleHit (file : FileMetadata) : Bool :=
  match file.initial_comment with
  | some c => ignoreCommentRegexTest c
  | none => false

/-- The sequential skip checks of `handleFileShared` (src/index.js:154-170):
dispatcher-gated name/title rule, dispatcher-gated comment rule, then the
unconditional non-PDF skip. -/
def evalIgnorePolicy (dispatcherId : Option String) (file : FileMetadata) : IgnoreVerdict :=
  if uploadedByDispatcher dispatcherId file
      && (ignoreFileRegexTest file.name || ignoreFileRegexTest file.title) then
    IgnoreVerdict.skipDispatcherFile
  else if uploadedByDispatcher dispatcherId file && commentRuleHit file then
    IgnoreVerdict.skipDispatcherComment
  else if file.filetype ≠ "pdf" then
    IgnoreVerdict.skipNonPdf
  else
    IgnoreVerdict.proceed

/-! ## Actions — the outward effects a handler performs, in order -/

/-- One outward effect of a handler. `uploadToPD`, `createNoteAttempt` and
`archiveAttempt` mark the point where the corresponding network call is
issued; whether it succeeded is carried by the environment and controls the
rest of the trace. -/
inductive Action where
  | postMessage (channel : String) (threadTs : Option String) (text : String)
  | postEphemeral (channel user text : String)
  | postEphemeralPrompt (channel user channelName dealId : String)
  | addReaction (channel name ts : String)
  | uploadToPD (dealId tmpPath fileName : String)
  | createNoteAttempt (dealId content : String)
  | archiveAttempt (channel : String)
  | unlinkTmp (tmpPath : String)
  | attachmentRelay (fileName : String)
  | logLine (text : String)
deriving Repr, DecidableEq

/-- The configuration surface the handlers read (src/index.js:28-46). -/
structure BotConfig where
  dispatcherId : Option String
  reactionUploadFiles : Bool
  archiveReactions : List String
  archiveAllowed : List String
deriving Repr, DecidableEq

/-- Defaults of the env-var parsing (src/index.js:28-45) with no overrides. -/
def defaultConfig : BotConfig :=
  ⟨none, true, ["v", "end", "checkered_flag", "file_cabinet", "archivebox"], []⟩

/-- `isArchiveAllowed` (src/index.js:46): empty allow-list permits everyone. -/
def isArchiveAllowed (cfg : BotConfig) (userId : String) : Bool :=
  cfg.archiveAllowed.isEmpty || cfg.archiveAllowed.contains userId

/-! ## File Relay — `handleFileShared` (src/index.js:146-197) -/

/-- `deriveChannelIdFromFile` (src/index.js:131-144): first channel/group,
else first key of the public then private shares map. -/
def deriveChannelIdFromFile (file : FileMetadata) : Option String :=
  file.channels.head? <|> file.groups.head? <|> file.sharesPublic.head? <|> file.sharesPrivate.head?

/-- The results of the external calls one `handleFileShared` run makes:
`files.info` (none = lookup failed or no file), the resolved channel's name,
and the download / Pipedrive-upload outcomes (`Except.error` = the awaited
call threw). -/
structure FileSharedEnv where
  fileInfo : Option FileMetadata
  channelName : String
  downloadResult : Except String String
  uploadResult : Except String Unit
deriving Repr

/-- `handleFileShared` (src/index.js:146-197) as a pure trace function. A
thrown download or upload aborts the run (the top-level handler only logs),
so the `unlinkSync` at src/index.js:196 runs only after a successful upload
and the success message. -/
def handleFileShared (cfg : BotConfig) (env : FileSharedEnv) (channelId : Option String) :
    List Action :=
  match env.fileInfo with
  | none => []
  | some file =>
    match evalIgnorePolicy cfg.dispatcherId file with
    | IgnoreVerdict.skipDispatcherFile =>
      [Action.logLine ("⏭️ Skipping Dispatcher WO PDF: " ++ file.name)]
    | IgnoreVerdict.skipDispatcherComment =>
      [Action.logLine ("⏭️ Skipping based on Dispatcher comment: " ++ jsToStr file.initial_comment)]
    | IgnoreVerdict.skipNonPdf =>
      [Action.logLine ("⏭️ Skipping non-PDF: " ++ file.name)]
    | IgnoreVerdict.proceed =>
      match channelId <|> deriveChannelIdFromFile file with
      | none => [Action.logLine "❌ No channel found on file_shared; file had no channels/groups/shares"]
      | some target =>
        match extractDealIdFromChannelName env.channelName with
        | none =>
          [Action.postMessage target none
            ("❌ Could not find a deal number in channel name \"" ++ env.channelName
              ++ "\". Name must include \"deal###\".")]
        | some dealId =>
          match env.downloadResult with
          | Except.error _ => []
          | Except.ok tmpPath =>
            match env.uploadResult with
            | Except.error _ =>
              [Action.uploadToPD dealId tmpPath
                ("Scope - " ++ replaceHyphens env.channelName ++ ".pdf")]
            | Except.ok _ =>
              [Action.uploadToPD dealId tmpPath
                ("Scope - " ++ replaceHyphens env.channelName ++ ".pdf"),
               Action.postMessage target none
                ("✅ Uploaded *" ++ ("Scope - " ++ replaceHyphens env.channelName ++ ".pdf")
                  ++ "* to Pipedrive deal #" ++ dealId),
               Action.unlinkTmp tmpPath]

/-! ## Synchronization Dedupe Cache — `noteDedupe` / `recentlyNoted`
(src/index.js:224-228, write at src/index.js:318) -/

/-- `Map.get` on the dedupe map, modelled as lookup-first association list. -/
def dedupeGet : List (String × Nat) → String → Option Nat
  | [], _ => none
  | (k, v) :: rest, key => if k = key then some v else dedupeGet rest key

/-- `noteDedupe.set(key, now)` — the spec's `markProcessed`. Prepending
shadows any older entry for the same key under `dedupeGet`. -/
def dedupeSet (m : List (String × Nat)) (k : String) (v : Nat) : List (String × Nat) :=
  (k, v) :: m

/-- `recentlyNoted` (src/index.js:225-228) — the spec's `wasRecentlyProcessed`:
`const t = noteDedupe.get(k); return t && (Date.now() - t < ms)`. The JS
truthiness of `t` (a stored timestamp 0 would be falsy) is kept. -/
def recentlyNoted (m : List (String × Nat)) (k : String) (now : Nat) (ms : Nat) : Bool :=
  match dedupeGet m k with
  | none => false
  | some t => decide (t ≠ 0) && decide (now - t < ms)

/-! ## Note Composer — `buildNoteFromSlack` (src/index.js:103-118) -/

/-- The arguments object of `buildNoteFromSlack`. -/
structure NoteInput where
  channelName : String
  reactorName : String
  authorName : String
  ts : String
  permalink : Option String
  text : String
  attachmentsList : List String
deriving Repr

/-- `Number(String(ts).split('.')[0])` for an all-digit integer part. -/
def tsSeconds (ts : String) : Nat :=
  (ts.data.takeWhile (fun c => c ≠ '.')).foldl (fun acc c => acc * 10 + (c.toNat - 48)) 0

/-- The `lines.join('\n')` body of the note (src/index.js:105-108): the
trimmed message text when nonempty, then the bulleted attachment section when
any attachments exist. -/
def noteBody (i : NoteInput) : String :=
  String.intercalate "\n"
    ((if jsTrimS i.text ≠ "" then [jsTrimS i.text] else [])
      ++ (if i.attachmentsList.length ≠ 0 then
            "" :: "Attachments:" :: i.attachmentsList.map (fun s => "• " ++ s)
          else []))

/-- `buildNoteFromSlack` (src/index.js:103-118). The locale rendering of
`new Date(ms).toLocaleString()` is environment-dependent, so it is passed in
as `localeString`. -/
def buildNoteFromSlack (localeString : Nat → String) (i : NoteInput) : String :=
  jsTrimS ("Slack note (via ✅ by " ++ i.reactorName ++ ")\nChannel: #" ++ i.channelName
    ++ "\nAuthor: " ++ i.authorName ++ "\nWhen: " ++ localeString (tsSeconds i.ts * 1000)
    ++ "\nLink: " ++ jsToStr i.permalink ++ "\n\n" ++ noteBody i)

/-! ## Note Relay — the `reaction_added` handler (src/index.js:230-327) -/

/-- The note-trigger reaction set `PD_NOTE_REACTIONS` (src/index.js:223). -/
def PD_NOTE_REACTIONS : List String :=
  ["white_check_mark", "heavy_check_mark", "ballot_box_with_check"]

/-- A Slack file entry on a message, as read by the reaction handler. -/
structure SlackFile where
  name : String
  filetype : String
  url_private_download : String
deriving Repr, DecidableEq

/-- The historical message fetched at the reacted timestamp. -/
structure SlackMessage where
  user : Option String
  text : Option String
  files : List SlackFile
deriving Repr, DecidableEq

/-- A `users.info` result, reduced to the fields the handler reads. -/
structure UserRecord where
  real_name : Option String
  display_name : Option String
deriving Repr, DecidableEq

/-- One note of the Pipedrive recent-notes response. -/
structure PDNote where
  content : Option String
deriving Repr, DecidableEq

/-- The body returned by the Pipedrive create-note call. -/
structure PDNoteResponse where
  success : Bool
  error : Option String
deriving Repr, DecidableEq

/-- `authorInfo?.user?.real_name || authorInfo?.user?.profile?.display_name ||
(msg.user ? mention : 'unknown')` (src/index.js:285). -/
def authorNameOf (msg : SlackMessage) (info : Option UserRecord) : String :=
  jsOrStr (info.bind UserRecord.real_name)
    (jsOrStr (info.bind UserRecord.display_name)
      (match msg.user with
       | some u => "<@" ++ u ++ ">"
       | none => "unknown"))

/-- `reactorInfo?.user?.real_name || ... || mention` (src/index.js:286). -/
def reactorNameOf (user : String) (info : Option UserRecord) : String :=
  jsOrStr (info.bind UserRecord.real_name)
    (jsOrStr (info.bind UserRecord.display_name) ("<@" ++ user ++ ">"))

/-- The attachment descriptor list pushed at src/index.js:291. -/
def attachmentsListOf (msg : SlackMessage) : List String :=
  msg.files.map (fun f => f.name ++ " (" ++ f.filetype ++ ")")

/-- The best-effort attachment-relay loop (src/index.js:292-302): one relay
attempt per file when the toggle is on; an individual failure is caught and
never aborts the handler, so only the attempts appear in the trace. -/
def noteUploadActs (cfg : BotConfig) (msg : SlackMessage) : List Action :=
  if cfg.reactionUploadFiles then msg.files.map (fun f => Action.attachmentRelay f.name) else []

/-- The recent-notes duplicate probe (src/index.js:309-310):
`recent?.data?.some(n => (n.content || '').includes(permalink))`, where a
thrown or empty fetch (`none`) falls through to creating the note. JS
coerces an `undefined` permalink to the text "undefined" inside `includes`. -/
def recentNotesDupHit (recentNotes : Option (List PDNote)) (permalink : Option String) : Bool :=
  match recentNotes with
  | some notes => notes.any (fun n => listContains (jsToStr permalink).data (jsOrStr n.content "").data)
  | none => false

/-- The results of the external calls one `reaction_added` run makes, plus the
incoming dedupe map and the wall-clock readings (`now` at the dedupe check,
`nowSet` at the post-success write). -/
structure ReactionEnv where
  reaction : String
  itemChannel : Option String
  itemTs : Option String
  user : String
  now : Nat
  nowSet : Nat
  dedupe : List (String × Nat)
  channelName : String
  histMessage : Option SlackMessage
  authorInfo : Option UserRecord
  reactorInfo : Option UserRecord
  permalink : Option String
  recentNotes : Option (List PDNote)
  noteResult : Except String PDNoteResponse

/-- The composed note content for this run (src/index.js:305). -/
def noteContentOf (localeString : Nat → String) (env : ReactionEnv) (msg : SlackMessage)
    (ts : String) : String :=
  buildNoteFromSlack localeString
    ⟨env.channelName, reactorNameOf env.user env.reactorInfo, authorNameOf msg env.authorInfo,
     ts, env.permalink, jsOrStr msg.text "", attachmentsListOf msg⟩

/-- The `reaction_added` handler (src/index.js:230-327) as a pure trace
function, returning the performed actions and the updated dedupe map. A
thrown create-note call propagates to the handler's top-level catch, which
only logs, so it ends the trace after the attempt. -/
def reactionAddedHandler (cfg : BotConfig) (localeString : Nat → String) (env : ReactionEnv) :
    List Action × List (String × Nat) :=
  match env.itemChannel, env.itemTs with
  | some channelId, some ts =>
    if cfg.archiveReactions.contains env.reaction then
      if isArchiveAllowed cfg env.user then
        ([Action.postEphemeralPrompt channelId env.user env.channelName
            (jsOrStr (extractDealIdFromChannelName env.channelName) "")], env.dedupe)
      else
        ([Action.postEphemeral channelId env.user "⛔ You’re not allowed to archive channels."],
         env.dedupe)
    else if PD_NOTE_REACTIONS.contains env.reaction = false then
      ([], env.dedupe)
    else if recentlyNoted env.dedupe (channelId ++ ":" ++ ts) env.now 300000 then
      ([], env.dedupe)
    else
      match extractDealIdFromChannelName env.channelName with
      | none =>
        ([Action.postMessage channelId (some ts) "⚠️ Channel name must include “deal###”."],
         env.dedupe)
      | some dealId =>
        match env.histMessage with
        | none => ([], env.dedupe)
        | some msg =>
          if recentNotesDupHit env.recentNotes env.permalink then
            (noteUploadActs cfg msg
              ++ [Action.postMessage channelId (some ts) "ℹ️ Already added to Pipedrive."],
             env.dedupe)
          else
            match env.noteResult with
            | Except.error _ =>
              (noteUploadActs cfg msg
                ++ [Action.createNoteAttempt dealId (noteContentOf localeString env msg ts)],
               env.dedupe)
            | Except.ok res =>
              if res.success then
                (noteUploadActs cfg msg
                  ++ [Action.createNoteAttempt dealId (noteContentOf localeString env msg ts),
                      Action.addReaction channelId "white_check_mark" ts,
                      Action.postMessage channelId (some ts)
                        ("✅ Sent to Pipedrive deal *" ++ dealId ++ "*.")],
                 dedupeSet env.dedupe (channelId ++ ":" ++ ts) env.nowSet)
              else
                (noteUploadActs cfg msg
                  ++ [Action.createNoteAttempt dealId (noteContentOf localeString env msg ts),
                      Action.postMessage channelId (some ts)
                        ("⚠️ Failed to send to Pipedrive: " ++ jsOrStr res.error "unknown error")],
                 env.dedupe)
  | _, _ => ([], env.dedupe)

/-! ## Archive Coordinator — the `archive_channel_confirm` /
`archive_channel_cancel` actions (src/index.js:330-357) -/

/-- The parsed confirmation payload plus the external-call outcomes of one
`archive_channel_confirm` invocation (`Except.error` = the awaited call
threw; the archive error string is `e?.data?.error || e?.message`). An
absent `dealId` round-trips as the empty string (src/index.js:240). -/
structure ArchiveConfirmEnv where
  userId : String
  channelId : String
  dealId : String
  archiveResult : Except String Unit
  noteResult : Except String Unit

/-- The `archive_channel_confirm` action handler (src/index.js:330-350) as a
pure trace function. -/
def archiveChannelConfirm (env : ArchiveConfirmEnv) : List Action :=
  if env.channelId = "" then []
  else
    [Action.postMessage env.channelId none
      ("📦 Archiving this channel at the request of <@" ++ env.userId ++ ">…"),
     Action.archiveAttempt env.channelId]
    ++ match env.archiveResult with
       | Except.error e =>
         [Action.postEphemeral env.channelId env.userId ("⚠️ Archive failed: " ++ e)]
       | Except.ok _ =>
         if env.dealId ≠ "" then
           [Action.createNoteAttempt env.dealId
             ("Channel archived by <@" ++ env.userId ++ "> (channel " ++ env.channelId ++ ").")]
           ++ match env.noteResult with
              | Except.error e => [Action.logLine ("PD note on archive failed: " ++ e)]
              | Except.ok _ => []
         else []

/-- The `archive_channel_cancel` action handler (src/index.js:352-357). -/
def archiveChannelCancel (userId : String) (value : String) : List Action :=
  [Action.postEphemeral value userId "Archive canceled."]

/-! ## Lemmas about the string helpers -/

theorem listStartsWith_iff (pat l : List Char) :
    listStartsWith pat l = true ↔ ∃ s, l = pat ++ s := by
  induction pat generalizing l with
  | nil => simp [listStartsWith]
  | cons p ps ih =>
    cases l with
    | nil => simp [listStartsWith]
    | cons c cs =>
      simp only [listStartsWith, Bool.and_eq_true, decide_eq_true_eq, ih, List.cons_append,
        List.cons.injEq]
      constructor
      · rintro ⟨rfl, s, rfl⟩
        exact ⟨s, rfl, rfl⟩
      · rintro ⟨s, rfl, rfl⟩
        exact ⟨rfl, s, rfl⟩

theorem listContains_iff (pat l : List Char) :
    listContains pat l = true ↔ ∃ p s, l = p ++ pat ++ s := by
  induction l with
  | nil =>
    simp only [listContains, listStartsWith_iff]
    constructor
    · rintro ⟨s, h⟩
      exact ⟨[], s, by simpa using h⟩
    · rintro ⟨p, s, h⟩
      rw [eq_comm, List.append_eq_nil, List.append_eq_nil] at h
      exact ⟨[], by simp [h.1.2]⟩
  | cons c cs ih =>
    simp only [listContains, Bool.or_eq_true, listStartsWith_iff, ih]
    constructor
    · rintro (⟨s, h⟩ | ⟨p, s, h⟩)
      · exact ⟨[], s, by simpa using h⟩
      · exact ⟨c :: p, s, by simp [h]⟩
    · rintro ⟨p, s, h⟩
      cases p with
      | nil => exact Or.inl ⟨s, by simpa using h⟩
      | cons x xs =>
        simp only [List.cons_append, List.cons.injEq] at h
        exact Or.inr ⟨xs, s, h.2⟩

theorem listContains_of_parts (pat p s l : List Char) (h : l = p ++ pat ++ s) :
    listContains pat l = true :=
  (listContains_iff pat l).mpr ⟨p, s, h⟩

theorem listContains_reverse (pat l : List Char) (h : listContains pat l = true) :
    listContains pat.reverse l.reverse = true := by
  obtain ⟨p, s, rfl⟩ := (listContains_iff pat l).mp h
  exact listContains_of_parts _ s.reverse p.reverse _ (by simp)

theorem listContains_nil_pat (l : List Char) : listContains [] l = true := by
  cases l <;> simp [listContains, listStartsWith]

theorem listContains_dropWhile (pat l : List Char)
    (hh : isWhite (pat.headD 'x') = false)
    (hc : listContains pat l = true) :
    listContains pat (l.dropWhile isWhite) = true := by
  induction l with
  | nil => simpa using hc
  | cons c cs ih =>
    rw [List.dropWhile_cons]
    by_cases hw : isWhite c = true
    · simp only [hw, if_true]
      apply ih
      simp only [listContains, Bool.or_eq_true] at hc
      rcases hc with hsw | hrest
      · obtain ⟨s, hs⟩ := (listStartsWith_iff pat (c :: cs)).mp hsw
        cases pat with
        | nil => exact listContains_nil_pat cs
        | cons q qs =>
          simp only [List.cons_append, List.cons.injEq] at hs
          rw [List.headD_cons] at hh
          rw [hs.1] at hw
          rw [hh] at hw
          exact absurd hw (by simp)
      · exact hrest
    · simp only [hw, if_false]
      exact hc

theorem listContains_jsTrimList (pat l : List Char)
    (hh : isWhite (pat.headD 'x') = false)
    (hl : isWhite (pat.reverse.headD 'x') = false)
    (hc : listContains pat l = true) :
    listContains pat (jsTrimList l) = true := by
  unfold jsTrimList
  have h1 : listContains pat (l.dropWhile isWhite) = true :=
    listContains_dropWhile pat l hh hc
  have h2 : listContains pat.reverse (l.dropWhile isWhite).reverse = true :=
    listContains_reverse pat _ h1
  have h3 : listContains pat.reverse ((l.dropWhile isWhite).reverse.dropWhile isWhite) = true :=
    listContains_dropWhile pat.reverse _ hl h2
  have h4 := listContains_reverse pat.reverse _ h3
  simpa using h4

/-! ## Lemmas about the Identifier Resolver -/

theorem takeDigits_decomp (l : List Char) :
    ∃ s, l = takeDigits l ++ s ∧ (takeDigits l).all Char.isDigit = true
      ∧ (s = [] ∨ (s.headD ' ').isDigit = false) := by
  induction l with
  | nil => exact ⟨[], by simp [takeDigits]⟩
  | cons c cs ih =>
    by_cases hd : c.isDigit = true
    · obtain ⟨s, hs, hall, hmax⟩ := ih
      refine ⟨s, ?_, ?_, hmax⟩
      · rw [takeDigits, if_pos hd, List.cons_append]
        exact congrArg (c :: ·) hs
      · rw [takeDigits, if_pos hd]
        simp [hd, hall]
    · rw [Bool.not_eq_true] at hd
      refine ⟨c :: cs, ?_, ?_, Or.inr ?_⟩
      · rw [takeDigits, if_neg (by simp [hd])]
        simp
      · rw [takeDigits, if_neg (by simp [hd])]
        simp
      · simpa using hd

theorem takeDigits_ne_nil (c : Char) (l : List Char) (h : c.isDigit = true) :
    takeDigits (c :: l) ≠ [] := by
  rw [takeDigits, if_pos h]
  simp

theorem isDealAt_eq_some (l ds : List Char) (h : isDealAt l = some ds) :
    ∃ d e a lc rest, l = d :: e :: a :: lc :: rest
      ∧ d.toLower = 'd' ∧ e.toLower = 'e' ∧ a.toLower = 'a' ∧ lc.toLower = 'l'
      ∧ ds = takeDigits rest ∧ ds ≠ [] := by
  match l with
  | [] => simp [isDealAt] at h
  | [_] => simp [isDealAt] at h
  | [_, _] => simp [isDealAt] at h
  | [_, _, _] => simp [isDealAt] at h
  | d :: e :: a :: lc :: rest =>
    rw [isDealAt] at h
    split at h
    · rename_i hcond
      obtain ⟨h1, h2, h3, h4, h5⟩ := hcond
      injection h with h
      exact ⟨d, e, a, lc, rest, rfl, h1, h2, h3, h4, h.symm, h ▸ h5⟩
    · exact absurd h (by simp)

theorem isDealAt_of_occur (d e a lc : Char) (r s : List Char)
    (h1 : d.toLower = 'd') (h2 : e.toLower = 'e') (h3 : a.toLower = 'a') (h4 : lc.toLower = 'l')
    (hr : r ≠ []) (hdig : r.all Char.isDigit = true) :
    (isDealAt (d :: e :: a :: lc :: (r ++ s))).isSome = true := by
  cases r with
  | nil => exact absurd rfl hr
  | cons c cs =>
    have hc : c.isDigit = true := by
      simp only [List.all_cons, Bool.and_eq_true] at hdig
      exact hdig.1
    rw [isDealAt, if_pos ⟨h1, h2, h3, h4, by simpa using takeDigits_ne_nil c (cs ++ s) hc⟩]
    simp

theorem findDeal_isSome_of_occur (l r : List Char) (h : DealOccur l r) :
    (findDeal l).isSome = true := by
  obtain ⟨p, d, e, a, lc, s, hl, h1, h2, h3, h4, hr, hdig⟩ := h
  subst hl
  induction p with
  | nil =>
    have hshape : (([] : List Char) ++ [d, e, a, lc]) ++ r ++ s
        = d :: e :: a :: lc :: (r ++ s) := by simp
    rw [hshape, findDeal]
    have hda := isDealAt_of_occur d e a lc r s h1 h2 h3 h4 hr hdig
    cases hsome : isDealAt (d :: e :: a :: lc :: (r ++ s)) with
    | some ds => simp [hsome]
    | none => rw [hsome] at hda; simp at hda
  | cons x p' ih =>
    have hshape : ((x :: p') ++ [d, e, a, lc]) ++ r ++ s
        = x :: ((p' ++ [d, e, a, lc]) ++ r ++ s) := by simp
    rw [hshape, findDeal]
    cases hsome : isDealAt (x :: ((p' ++ [d, e, a, lc]) ++ r ++ s)) with
    | some ds => simp [hsome]
    | none => simpa [hsome] using ih

theorem findDeal_eq_some (l ds : List Char) (h : findDeal l = some ds) :
    ∃ p d e a lc s, l = p ++ [d, e, a, lc] ++ ds ++ s
      ∧ d.toLower = 'd' ∧ e.toLower = 'e' ∧ a.toLower = 'a' ∧ lc.toLower = 'l'
      ∧ ds ≠ [] ∧ ds.all Char.isDigit = true
      ∧ (s = [] ∨ (s.headD ' ').isDigit = false) := by
  induction l with
  | nil => simp [findDeal] at h
  | cons c cs ih =>
    rw [findDeal] at h
    cases hda : isDealAt (c :: cs) with
    | some ds0 =>
      rw [hda] at h
      injection h with h
      subst h
      obtain ⟨d, e, a, lc, rest, hshape, h1, h2, h3, h4, hds, hne⟩ := isDealAt_eq_some _ _ hda
      obtain ⟨s, hrest, hall, hmax⟩ := takeDigits_decomp rest
      refine ⟨[], d, e, a, lc, s, ?_, h1, h2, h3, h4, hne, ?_, hmax⟩
      · rw [hshape]
        rw [hds]
        simp only [List.nil_append, List.append_assoc, List.cons_append]
        exact congrArg (fun t => d :: e :: a :: lc :: t) hrest
      · rw [hds]
        exact hall
    | none =>
      rw [hda] at h
      obtain ⟨p, d, e, a, lc, s, hl, hrest⟩ := ih h
      exact ⟨c :: p, d, e, a, lc, s, by simp [hl], hrest⟩

/-- Claim C1: for every channel name containing "deal" immediately followed by
one or more digits (case-insensitively), `extractDealIdFromChannelName`
returns a result, and any returned RecordId is exactly such a digit run (the
maximal run following a case-insensitive "deal", so no digit is dropped);
names without the pattern give not-found. The function is total and pure with
`Option` as its only failure mode. -/
theorem C1_identifier_resolver (name : String) :
    ((∃ r, DealOccur name.data r) ↔ (extractDealIdFromChannelName name).isSome = true)
    ∧ (∀ out, extractDealIdFromChannelName name = some out →
        out.data ≠ [] ∧ out.data.all Char.isDigit = true
        ∧ ∃ p d e a lc s, name.data = p ++ [d, e, a, lc] ++ out.data ++ s
            ∧ d.toLower = 'd' ∧ e.toLower = 'e' ∧ a.toLower = 'a' ∧ lc.toLower = 'l'
            ∧ (s = [] ∨ (s.headD ' ').isDigit = false)) := by
  constructor
  · constructor
    · rintro ⟨r, hocc⟩
      have := findDeal_isSome_of_occur name.data r hocc
      rw [extractDealIdFromChannelName]
      cases hfd : findDeal name.data with
      | some ds => simp [hfd]
      | none => rw [hfd] at this; simp at this
    · intro hsome
      rw [extractDealIdFromChannelName] at hsome
      cases hfd : findDeal name.data with
      | some ds =>
        obtain ⟨p, d, e, a, lc, s, hl, h1, h2, h3, h4, hne, hall, _⟩ :=
          findDeal_eq_some name.data ds hfd
        exact ⟨ds, p, d, e, a, lc, s, hl, h1, h2, h3, h4, hne, hall⟩
      | none => rw [hfd] at hsome; simp at hsome
  · intro out hout
    rw [extractDealIdFromChannelName] at hout
    cases hfd : findDeal name.data with
    | some ds =>
      rw [hfd] at hout
      injection hout with hout
      obtain ⟨p, d, e, a, lc, s, hl, h1, h2, h3, h4, hne, hall, hmax⟩ :=
        findDeal_eq_some name.data ds hfd
      have hdata : out.data = ds := by rw [← hout]
      rw [hdata]
      exact ⟨hne, hall, p, d, e, a, lc, s, hl, h1, h2, h3, h4, hmax⟩
    | none => rw [hfd] at hout; exact absurd hout (by simp)

/-- Witness for C1 at the spec's own example "proj-deal482-kickoff" → "482". -/
theorem C1_witness :
    (∃ r, DealOccur (String.data "proj-deal482-kickoff") r)
    ∧ (String.data "482" ≠ [] ∧ (String.data "482").all Char.isDigit = true) :=
  ⟨(C1_identifier_resolver "proj-deal482-kickoff").1.mpr (by decide),
   ((C1_identifier_resolver "proj-deal482-kickoff").2 "482" (by decide)).1,
   ((C1_identifier_resolver "proj-deal482-kickoff").2 "482" (by decide)).2.1⟩

/-! ## Claim C3 — the Dedupe Cache -/

/-- Claim C3: writing a key at wall-clock time `t` (`noteDedupe.set`, the
spec's `markProcessed`) makes `recentlyNoted` (the spec's
`wasRecentlyProcessed`) true immediately; once the 5-minute window has
elapsed it is false; a key never written is never recent. The hypothesis
`0 < t` states that the write used a real wall-clock reading (JS `Date.now()`
is always positive; the source's truthiness test `t && ...` would treat a
stored time of exactly 0 as absent). -/
theorem C3_dedupe_cache (m : List (String × Nat)) (k : String) (t now : Nat) (ht : 0 < t) :
    recentlyNoted (dedupeSet m k t) k t 300000 = true
    ∧ (t + 300000 ≤ now → recentlyNoted (dedupeSet m k t) k now 300000 = false)
    ∧ recentlyNoted [] k now 300000 = false := by
  have hget : dedupeGet (dedupeSet m k t) k = some t := by
    simp [dedupeSet, dedupeGet]
  refine ⟨?_, ?_, ?_⟩
  · rw [recentlyNoted, hget]
    simp only [Bool.and_eq_true, decide_eq_true_eq]
    omega
  · intro hel
    rw [recentlyNoted, hget]
    simp only [Bool.and_eq_false_iff, decide_eq_false_iff_not, not_not, not_lt]
    omega
  · rw [recentlyNoted]
    simp [dedupeGet]

/-- Witness for C3 at a concrete key and clock readings. -/
theorem C3_witness :
    recentlyNoted (dedupeSet [] "C1:42.0" 1000) "C1:42.0" 1000 300000 = true
    ∧ recentlyNoted (dedupeSet [] "C1:42.0" 1000) "C1:42.0" 301000 300000 = false
    ∧ recentlyNoted [] "C1:42.0" 301000 300000 = false := by
  have h := C3_dedupe_cache [] "C1:42.0" 1000 301000 (by decide)
  exact ⟨h.1, h.2.1 (by decide), h.2.2⟩

/-! ## Claim C5 — the Ignore-Policy Evaluator -/

theorem uploadedByDispatcher_iff (d : Option String) (f : FileMetadata) :
    uploadedByDispatcher d f = true ↔ ∃ u, d = some u ∧ f.user = some u := by
  cases d with
  | none => simp [uploadedByDispatcher]
  | some d0 =>
    simp only [uploadedByDispatcher, beq_iff_eq, Option.some.injEq]
    constructor
    · intro h
      exact ⟨d0, rfl, h⟩
    · rintro ⟨u, rfl, h⟩
      exact h

theorem commentRuleHit_iff (f : FileMetadata) :
    commentRuleHit f = true ↔ ∃ c, f.initial_comment = some c ∧ ignoreCommentRegexTest c = true := by
  cases hic : f.initial_comment with
  | none => simp [commentRuleHit, hic]
  | some c0 => simp [commentRuleHit, hic]

theorem evalIgnorePolicy_proceed_iff (d : Option String) (f : FileMetadata) :
    evalIgnorePolicy d f = IgnoreVerdict.proceed ↔
      (uploadedByDispatcher d f && (ignoreFileRegexTest f.name || ignoreFileRegexTest f.title)) = false
      ∧ (uploadedByDispatcher d f && commentRuleHit f) = false
      ∧ f.filetype = "pdf" := by
  cases hc1 : (uploadedByDispatcher d f && (ignoreFileRegexTest f.name || ignoreFileRegexTest f.title)) with
  | true => simp [evalIgnorePolicy, hc1]
  | false =>
    cases hc2 : (uploadedByDispatcher d f && commentRuleHit f) with
    | true => simp [evalIgnorePolicy, hc1, hc2]
    | false =>
      by_cases hft : f.filetype = "pdf"
      · simp [evalIgnorePolicy, hc1, hc2, hft]
      · simp [evalIgnorePolicy, hc1, hc2, hft]

/-- Claim C5: a non-PDF file is always suppressed, whatever its uploader; a
PDF is suppressed exactly when the Dispatcher account is configured, the
uploader is that account, and the name/title matches the ignore-filename
pattern or the initial comment matches the ignore-comment pattern — so the
same file from any other uploader proceeds. -/
theorem C5_ignore_policy (d : Option String) (f : FileMetadata) :
    (f.filetype ≠ "pdf" → evalIgnorePolicy d f ≠ IgnoreVerdict.proceed)
    ∧ (f.filetype = "pdf" →
        (evalIgnorePolicy d f = IgnoreVerdict.proceed ↔
          ¬((∃ u, d = some u ∧ f.user = some u)
            ∧ (ignoreFileRegexTest f.name = true ∨ ignoreFileRegexTest f.title = true
               ∨ ∃ c, f.initial_comment = some c ∧ ignoreCommentRegexTest c = true)))) := by
  constructor
  · intro hft hp
    exact hft ((evalIgnorePolicy_proceed_iff d f).mp hp).2.2
  · intro hft
    rw [evalIgnorePolicy_proceed_iff]
    constructor
    · rintro ⟨hc1, hc2, -⟩ ⟨hup, hrule⟩
      have hupb : uploadedByDispatcher d f = true := (uploadedByDispatcher_iff d f).mpr hup
      rw [hupb] at hc1 hc2
      rcases hrule with h | h | h
      · rw [h] at hc1; simp at hc1
      · rw [h] at hc1; simp at hc1
      · rw [(commentRuleHit_iff f).mpr h] at hc2; simp at hc2
    · intro hn
      refine ⟨?_, ?_, hft⟩
      · cases hub : uploadedByDispatcher d f with
        | false => rfl
        | true =>
          cases hfn : ignoreFileRegexTest f.name with
          | true => exact absurd ⟨(uploadedByDispatcher_iff d f).mp hub, Or.inl hfn⟩ hn
          | false =>
            cases hfT : ignoreFileRegexTest f.title with
            | true => exact absurd ⟨(uploadedByDispatcher_iff d f).mp hub, Or.inr (Or.inl hfT)⟩ hn
            | false => rfl
      · cases hub : uploadedByDispatcher d f with
        | false => rfl
        | true =>
          cases hcr : commentRuleHit f with
          | true => exact absurd ⟨(uploadedByDispatcher_iff d f).mp hub,
              Or.inr (Or.inr ((commentRuleHit_iff f).mp hcr))⟩ hn
          | false => rfl

/-- A Dispatcher-uploaded WO PDF (matches the ignore-filename rule). -/
def fileWOdisp : FileMetadata :=
  ⟨"WO_1234.pdf", "WO_1234", "pdf", some "UDISP", none, "https://f/1", [], [], [], []⟩

/-- The same WO PDF uploaded by a human account. -/
def fileWOalice : FileMetadata :=
  ⟨"WO_1234.pdf", "WO_1234", "pdf", some "UALICE", none, "https://f/1", [], [], [], []⟩

/-- A docx upload from a human account. -/
def fileDocx : FileMetadata :=
  ⟨"report.docx", "report", "docx", some "UALICE", none, "https://f/2", [], [], [], []⟩

/-- Witness for C5: the WO PDF is suppressed for the Dispatcher uploader only,
and a docx is suppressed regardless. -/
theorem C5_witness :
    evalIgnorePolicy (some "UDISP") fileWOdisp ≠ IgnoreVerdict.proceed
    ∧ evalIgnorePolicy (some "UDISP") fileWOalice = IgnoreVerdict.proceed
    ∧ evalIgnorePolicy (some "UDISP") fileDocx ≠ IgnoreVerdict.proceed := by
  refine ⟨?_, ?_, ?_⟩
  · intro hp
    exact (((C5_ignore_policy (some "UDISP") fileWOdisp).2 rfl).mp hp)
      ⟨⟨"UDISP", rfl, rfl⟩, Or.inl (by decide)⟩
  · exact ((C5_ignore_policy (some "UDISP") fileWOalice).2 rfl).mpr
      (fun hcond => by
        obtain ⟨⟨u, hu1, hu2⟩, _⟩ := hcond
        injection hu1 with hu1
        rw [← hu1] at hu2
        exact absurd hu2 (by decide))
  · exact (C5_ignore_policy (some "UDISP") fileDocx).1 (by decide)

/-! ## Claim C6 — File Relay success path -/

/-- Claim C6: a PDF that passes the ignore policy, in a resolvable channel
whose name yields a RecordId, is uploaded to that deal under
"Scope - " + channel name with hyphens spaced + ".pdf", and a success message
naming the deal is posted to the source channel. -/
theorem C6_file_relay (cfg : BotConfig) (env : FileSharedEnv) (cid : Option String)
    (file : FileMetadata) (target dealId tmpPath : String)
    (hf : env.fileInfo = some file)
    (hig : evalIgnorePolicy cfg.dispatcherId file = IgnoreVerdict.proceed)
    (hch : (cid <|> deriveChannelIdFromFile file) = some target)
    (hdeal : extractDealIdFromChannelName env.channelName = some dealId)
    (hdl : env.downloadResult = Except.ok tmpPath)
    (hup : env.uploadResult = Except.ok ()) :
    handleFileShared cfg env cid =
      [Action.uploadToPD dealId tmpPath ("Scope - " ++ replaceHyphens env.channelName ++ ".pdf"),
       Action.postMessage target none
        ("✅ Uploaded *" ++ ("Scope - " ++ replaceHyphens env.channelName ++ ".pdf")
          ++ "* to Pipedrive deal #" ++ dealId),
       Action.unlinkTmp tmpPath] := by
  simp only [handleFileShared, hf, hig, hch, hdeal, hdl, hup]

/-- The end-to-end PDF of the spec's scenario, shared into "deal57-roofing". -/
def file6 : FileMetadata :=
  ⟨"scope.pdf", "scope", "pdf", some "UALICE", none, "https://f/6", ["C600"], [], [], []⟩

/-- The call results of the successful end-to-end run. -/
def env6 : FileSharedEnv :=
  ⟨some file6, "deal57-roofing", Except.ok "/tmp/x.pdf", Except.ok ()⟩

/-- Witness for C6 at the spec's scenario: channel "deal57-roofing" → deal
"57", display name "Scope - deal57 roofing.pdf". -/
theorem C6_witness :
    handleFileShared defaultConfig env6 (some "C600") =
      [Action.uploadToPD "57" "/tmp/x.pdf" "Scope - deal57 roofing.pdf",
       Action.postMessage "C600" none "✅ Uploaded *Scope - deal57 roofing.pdf* to Pipedrive deal #57",
       Action.unlinkTmp "/tmp/x.pdf"] :=
  C6_file_relay defaultConfig env6 (some "C600") file6 "C600" "57" "/tmp/x.pdf"
    rfl (by decide) rfl (by decide) rfl rfl

/-! ## Claim C8 — temporary-file cleanup -/

/-- The same end-to-end run as `env6` but with the Pipedrive upload throwing. -/
def env8 : FileSharedEnv :=
  ⟨some file6, "deal57-roofing", Except.ok "/tmp/857-scope.pdf", Except.error "upload failed"⟩

/-- Counterexample to C8: in this run the file is downloaded to
"/tmp/857-scope.pdf" and the upload attempt completes with a failure, yet the
trace contains no cleanup of the temporary file — the `unlinkSync` at
src/index.js:196 is only reached on the success path, so cleanup is not
guaranteed "in both the success and the failure case". -/
theorem C8_counterexample :
    env8.downloadResult = Except.ok "/tmp/857-scope.pdf"
    ∧ handleFileShared defaultConfig env8 (some "C800") =
        [Action.uploadToPD "57" "/tmp/857-scope.pdf" "Scope - deal57 roofing.pdf"]
    ∧ Action.unlinkTmp "/tmp/857-scope.pdf" ∉ handleFileShared defaultConfig env8 (some "C800") :=
  ⟨rfl, by decide, by decide⟩

/-- Claim C8 as amended: after a successful download, the temporary file is
cleaned up when the CRM upload succeeds, but on an upload failure the
exception skips the cleanup and the temporary file is left behind. -/
theorem C8_amended_cleanup (cfg : BotConfig) (env : FileSharedEnv) (cid : Option String)
    (file : FileMetadata) (target dealId tmpPath : String)
    (hf : env.fileInfo = some file)
    (hig : evalIgnorePolicy cfg.dispatcherId file = IgnoreVerdict.proceed)
    (hch : (cid <|> deriveChannelIdFromFile file) = some target)
    (hdeal : extractDealIdFromChannelName env.channelName = some dealId)
    (hdl : env.downloadResult = Except.ok tmpPath) :
    (env.uploadResult = Except.ok () →
      Action.unlinkTmp tmpPath ∈ handleFileShared cfg env cid)
    ∧ (∀ e, env.uploadResult = Except.error e →
        Action.unlinkTmp tmpPath ∉ handleFileShared cfg env cid
        ∧ Action.uploadToPD dealId tmpPath ("Scope - " ++ replaceHyphens env.channelName ++ ".pdf")
            ∈ handleFileShared cfg env cid) := by
  constructor
  · intro hup
    simp [handleFileShared, hf, hig, hch, hdeal, hdl, hup]
  · intro e hup
    constructor
    · simp [handleFileShared, hf, hig, hch, hdeal, hdl, hup]
    · simp [handleFileShared, hf, hig, hch, hdeal, hdl, hup]

/-- Witness for the amended C8 on both sides of the upload outcome. -/
theorem C8_witness :
    Action.unlinkTmp "/tmp/x.pdf" ∈ handleFileShared defaultConfig env6 (some "C600")
    ∧ Action.unlinkTmp "/tmp/857-scope.pdf" ∉ handleFileShared defaultConfig env8 (some "C800") := by
  constructor
  · exact (C8_amended_cleanup defaultConfig env6 (some "C600") file6 "C600" "57" "/tmp/x.pdf"
      rfl (by decide) rfl (by decide) rfl).1 rfl
  · exact ((C8_amended_cleanup defaultConfig env8 (some "C800") file6 "C800" "57" "/tmp/857-scope.pdf"
      rfl (by decide) rfl (by decide) rfl).2 "upload failed" rfl).1

/-! ## Claim C9 — confirmed archive action -/

/-- Claim C9: on a confirmed archive with a nonempty channel id, the public
notice naming the actor is posted and the archive is attempted; on archive
success a CRM note is attempted only when a RecordId was in the payload, and
a thrown note call adds only a log line (the archive is not undone and
nothing user-facing happens); a thrown archive call is surfaced to the actor
as a private ephemeral error. -/
theorem C9_archive_confirm (env : ArchiveConfirmEnv) (hch : env.channelId ≠ "") :
    (∀ e, env.archiveResult = Except.error e →
      archiveChannelConfirm env =
        [Action.postMessage env.channelId none
          ("📦 Archiving this channel at the request of <@" ++ env.userId ++ ">…"),
         Action.archiveAttempt env.channelId,
         Action.postEphemeral env.channelId env.userId ("⚠️ Archive failed: " ++ e)])
    ∧ (env.archiveResult = Except.ok () → env.dealId = "" →
      archiveChannelConfirm env =
        [Action.postMessage env.channelId none
          ("📦 Archiving this channel at the request of <@" ++ env.userId ++ ">…"),
         Action.archiveAttempt env.channelId])
    ∧ (env.archiveResult = Except.ok () → env.dealId ≠ "" →
      (env.noteResult = Except.ok () →
        archiveChannelConfirm env =
          [Action.postMessage env.channelId none
            ("📦 Archiving this channel at the request of <@" ++ env.userId ++ ">…"),
           Action.archiveAttempt env.channelId,
           Action.createNoteAttempt env.dealId
            ("Channel archived by <@" ++ env.userId ++ "> (channel " ++ env.channelId ++ ").")])
      ∧ (∀ e, env.noteResult = Except.error e →
        archiveChannelConfirm env =
          [Action.postMessage env.channelId none
            ("📦 Archiving this channel at the request of <@" ++ env.userId ++ ">…"),
           Action.archiveAttempt env.channelId,
           Action.createNoteAttempt env.dealId
            ("Channel archived by <@" ++ env.userId ++ "> (channel " ++ env.channelId ++ ")."),
           Action.logLine ("PD note on archive failed: " ++ e)])) := by
  refine ⟨?_, ?_, ?_⟩
  · intro e har
    simp [archiveChannelConfirm, hch, har]
  · intro har hdid
    simp [archiveChannelConfirm, hch, har, hdid]
  · intro har hdid
    constructor
    · intro hnr
      simp [archiveChannelConfirm, hch, har, hdid, hnr]
    · intro e hnr
      simp [archiveChannelConfirm, hch, har, hdid, hnr]

/-- A confirmed archive with a deal in the payload, everything succeeding. -/
def env9ok : ArchiveConfirmEnv :=
  ⟨"UBOSS", "C900", "9", Except.ok (), Except.ok ()⟩

/-- A confirmed archive whose archive API call throws. -/
def env9err : ArchiveConfirmEnv :=
  ⟨"UBOSS", "C900", "9", Except.error "not_in_channel", Except.ok ()⟩

/-- Witness for C9 on both a successful archive (note written under record
"9") and a failing archive API call (private error). -/
theorem C9_witness :
    archiveChannelConfirm env9ok =
      [Action.postMessage "C900" none "📦 Archiving this channel at the request of <@UBOSS>…",
       Action.archiveAttempt "C900",
       Action.createNoteAttempt "9" "Channel archived by <@UBOSS> (channel C900)."]
    ∧ archiveChannelConfirm env9err =
      [Action.postMessage "C900" none "📦 Archiving this channel at the request of <@UBOSS>…",
       Action.archiveAttempt "C900",
       Action.postEphemeral "C900" "UBOSS" "⚠️ Archive failed: not_in_channel"] :=
  ⟨((C9_archive_confirm env9ok (by decide)).2.2 rfl (by decide)).1 rfl,
   (C9_archive_confirm env9err (by decide)).1 "not_in_channel" rfl⟩

/-! ## Claim C7 — step order on the note-relay path -/

/-- The note path with a dedupe hit but an unresolvable channel name: under
the claimed order (resolution first) the user would be notified here. -/
def envC7 : ReactionEnv :=
  ⟨"white_check_mark", some "C700", some "100.1", "UREACT", 1000, 1000,
   [("C700:100.1", 900)], "general", none, none, none, none, none, Except.error "unused"⟩

/-- Counterexample to C7: a note-trigger reaction on a message whose dedupe
key is recent and whose channel name has no RecordId. The claim's order
(resolution first, "not-found → notify the channel") would post a warning,
but the code checks the dedupe cache first and stops silently: the trace is
empty. -/
theorem C7_counterexample :
    extractDealIdFromChannelName envC7.channelName = none
    ∧ recentlyNoted envC7.dedupe ("C700" ++ ":" ++ "100.1") envC7.now 300000 = true
    ∧ reactionAddedHandler defaultConfig (fun _ => "") envC7 = ([], envC7.dedupe) :=
  ⟨by decide, by decide, by decide⟩

/-- Claim C7 as amended: on the note-relay path the Dedupe Cache check runs
first — a hit stops silently (no CRM call, no user message, even when the
name would not resolve) — and RecordId resolution runs second, notifying the
channel and stopping on not-found. -/
theorem C7_step_order (cfg : BotConfig) (lstr : Nat → String) (env : ReactionEnv)
    (channelId ts : String)
    (hch : env.itemChannel = some channelId) (hts : env.itemTs = some ts)
    (harch : cfg.archiveReactions.contains env.reaction = false)
    (hnote : PD_NOTE_REACTIONS.contains env.reaction = true) :
    (recentlyNoted env.dedupe (channelId ++ ":" ++ ts) env.now 300000 = true →
      reactionAddedHandler cfg lstr env = ([], env.dedupe))
    ∧ (recentlyNoted env.dedupe (channelId ++ ":" ++ ts) env.now 300000 = false →
      extractDealIdFromChannelName env.channelName = none →
      reactionAddedHandler cfg lstr env =
        ([Action.postMessage channelId (some ts) "⚠️ Channel name must include “deal###”."],
         env.dedupe)) := by
  have harch' : env.reaction ∉ cfg.archiveReactions := by simpa using harch
  have hnote' : env.reaction ∈ PD_NOTE_REACTIONS := by simpa using hnote
  constructor
  · intro hrec
    simp [reactionAddedHandler, hch, hts, harch', hnote', hrec]
  · intro hrec hdeal
    simp [reactionAddedHandler, hch, hts, harch', hnote', hrec, hdeal]

/-- Witness for the amended C7: the silent dedupe-hit stop on `envC7`, and
the not-found notification once the dedupe entry is absent. -/
theorem C7_witness :
    reactionAddedHandler defaultConfig (fun _ => "") envC7 = ([], envC7.dedupe)
    ∧ reactionAddedHandler defaultConfig (fun _ => "")
        ⟨"white_check_mark", some "C700", some "100.1", "UREACT", 1000, 1000,
         [], "general", none, none, none, none, none, Except.error "unused"⟩ =
      ([Action.postMessage "C700" (some "100.1") "⚠️ Channel name must include “deal###”."], []) :=
  ⟨(C7_step_order defaultConfig (fun _ => "") envC7 "C700" "100.1" rfl rfl (by decide)
      (by decide)).1 (by decide),
   (C7_step_order defaultConfig (fun _ => "")
      ⟨"white_check_mark", some "C700", some "100.1", "UREACT", 1000, 1000,
       [], "general", none, none, none, none, none, Except.error "unused"⟩
      "C700" "100.1" rfl rfl (by decide) (by decide)).2 (by decide) (by decide)⟩

/-! ## Claim C2 — dedupe key recorded iff the create-note call succeeds -/

/-- Claim C2: after the create-note call on the note-relay path, the dedupe
key for (channel, messageTs) is recorded exactly when the CRM reports
success (then the success message is posted); on a CRM-reported failure the
key is not recorded and the channel is notified with the CRM's error (or
"unknown error"); a thrown call also leaves the key unrecorded, so a later
reaction can re-attempt. -/
theorem C2_create_note_outcome (cfg : BotConfig) (lstr : Nat → String) (env : ReactionEnv)
    (channelId ts dealId : String) (msg : SlackMessage)
    (hch : env.itemChannel = some channelId) (hts : env.itemTs = some ts)
    (harch : cfg.archiveReactions.contains env.reaction = false)
    (hnote : PD_NOTE_REACTIONS.contains env.reaction = true)
    (hrec : recentlyNoted env.dedupe (channelId ++ ":" ++ ts) env.now 300000 = false)
    (hdeal : extractDealIdFromChannelName env.channelName = some dealId)
    (hmsg : env.histMessage = some msg)
    (hdup : recentNotesDupHit env.recentNotes env.permalink = false) :
    (∀ res, env.noteResult = Except.ok res →
      (res.success = true →
        (reactionAddedHandler cfg lstr env).2
            = dedupeSet env.dedupe (channelId ++ ":" ++ ts) env.nowSet
        ∧ Action.postMessage channelId (some ts) ("✅ Sent to Pipedrive deal *" ++ dealId ++ "*.")
            ∈ (reactionAddedHandler cfg lstr env).1)
      ∧ (res.success = false →
        (reactionAddedHandler cfg lstr env).2 = env.dedupe
        ∧ Action.postMessage channelId (some ts)
            ("⚠️ Failed to send to Pipedrive: " ++ jsOrStr res.error "unknown error")
            ∈ (reactionAddedHandler cfg lstr env).1))
    ∧ (∀ e, env.noteResult = Except.error e →
        (reactionAddedHandler cfg lstr env).2 = env.dedupe) := by
  have harch' : env.reaction ∉ cfg.archiveReactions := by simpa using harch
  have hnote' : env.reaction ∈ PD_NOTE_REACTIONS := by simpa using hnote
  constructor
  · intro res hres
    constructor
    · intro hsucc
      constructor
      · simp [reactionAddedHandler, hch, hts, harch', hnote', hrec, hdeal, hmsg, hdup, hres, hsucc]
      · simp [reactionAddedHandler, hch, hts, harch', hnote', hrec, hdeal, hmsg, hdup, hres, hsucc]
    · intro hsucc
      constructor
      · simp [reactionAddedHandler, hch, hts, harch', hnote', hrec, hdeal, hmsg, hdup, hres, hsucc]
      · simp [reactionAddedHandler, hch, hts, harch', hnote', hrec, hdeal, hmsg, hdup, hres, hsucc]
  · intro e hres
    simp [reactionAddedHandler, hch, hts, harch', hnote', hrec, hdeal, hmsg, hdup, hres]

/-- A note-relay run reaching the create-note call (no dedupe hit, deal "42"
from the channel name, a plain message, no recent-note duplicate). -/
def envC2 (noteResult : Except String PDNoteResponse) : ReactionEnv :=
  ⟨"white_check_mark", some "C200", some "200.2", "UREACT", 1000, 2000,
   [], "deal42-acme", some ⟨some "UAUTH", some "Looks good", []⟩,
   some ⟨some "Bob", none⟩, some ⟨some "Alice", none⟩,
   some "https://x/y", some [], noteResult⟩

/-- Witness for C2: success records the key and posts the confirmation;
CRM-reported failure and a thrown call leave the map unchanged. -/
theorem C2_witness :
    (reactionAddedHandler defaultConfig (fun _ => "")
        (envC2 (Except.ok ⟨true, none⟩))).2 = dedupeSet [] ("C200" ++ ":" ++ "200.2") 2000
    ∧ Action.postMessage "C200" (some "200.2") "✅ Sent to Pipedrive deal *42*."
        ∈ (reactionAddedHandler defaultConfig (fun _ => "") (envC2 (Except.ok ⟨true, none⟩))).1
    ∧ (reactionAddedHandler defaultConfig (fun _ => "")
        (envC2 (Except.ok ⟨false, some "deal not found"⟩))).2 = []
    ∧ Action.postMessage "C200" (some "200.2") "⚠️ Failed to send to Pipedrive: deal not found"
        ∈ (reactionAddedHandler defaultConfig (fun _ => "")
            (envC2 (Except.ok ⟨false, some "deal not found"⟩))).1
    ∧ (reactionAddedHandler defaultConfig (fun _ => "")
        (envC2 (Except.error "socket hang up"))).2 = [] := by
  refine ⟨?_, ?_, ?_, ?_, ?_⟩
  · exact (((C2_create_note_outcome defaultConfig (fun _ => "") (envC2 (Except.ok ⟨true, none⟩))
      "C200" "200.2" "42" ⟨some "UAUTH", some "Looks good", []⟩ rfl rfl (by decide) (by decide)
      (by decide) (by decide) rfl (by decide)).1 ⟨true, none⟩ rfl).1 rfl).1
  · exact (((C2_create_note_outcome defaultConfig (fun _ => "") (envC2 (Except.ok ⟨true, none⟩))
      "C200" "200.2" "42" ⟨some "UAUTH", some "Looks good", []⟩ rfl rfl (by decide) (by decide)
      (by decide) (by decide) rfl (by decide)).1 ⟨true, none⟩ rfl).1 rfl).2
  · exact (((C2_create_note_outcome defaultConfig (fun _ => "")
      (envC2 (Except.ok ⟨false, some "deal not found"⟩))
      "C200" "200.2" "42" ⟨some "UAUTH", some "Looks good", []⟩ rfl rfl (by decide) (by decide)
      (by decide) (by decide) rfl (by decide)).1 ⟨false, some "deal not found"⟩ rfl).2 rfl).1
  · exact (((C2_create_note_outcome defaultConfig (fun _ => "")
      (envC2 (Except.ok ⟨false, some "deal not found"⟩))
      "C200" "200.2" "42" ⟨some "UAUTH", some "Looks good", []⟩ rfl rfl (by decide) (by decide)
      (by decide) (by decide) rfl (by decide)).1 ⟨false, some "deal not found"⟩ rfl).2 rfl).2
  · exact (C2_create_note_outcome defaultConfig (fun _ => "")
      (envC2 (Except.error "socket hang up"))
      "C200" "200.2" "42" ⟨some "UAUTH", some "Looks good", []⟩ rfl rfl (by decide) (by decide)
      (by decide) (by decide) rfl (by decide)).2 "socket hang up" rfl

/-! ## Claim C4 — recent-notes duplicate suppression -/

theorem createNote_not_mem_noteUploadActs (cfg : BotConfig) (msg : SlackMessage) (dl c : String) :
    Action.createNoteAttempt dl c ∉ noteUploadActs cfg msg := by
  unfold noteUploadActs
  split
  · intro h
    obtain ⟨f, -, hf⟩ := List.mem_map.mp h
    exact Action.noConfusion hf
  · simp

/-- Claim C4: when some recent CRM note's content contains the computed
permalink, the note-relay path posts the already-added notice, performs no
create-note call, and leaves the dedupe map unchanged. -/
theorem C4_duplicate_suppression (cfg : BotConfig) (lstr : Nat → String) (env : ReactionEnv)
    (channelId ts dealId p : String) (msg : SlackMessage) (notes : List PDNote)
    (hch : env.itemChannel = some channelId) (hts : env.itemTs = some ts)
    (harch : cfg.archiveReactions.contains env.reaction = false)
    (hnote : PD_NOTE_REACTIONS.contains env.reaction = true)
    (hrec : recentlyNoted env.dedupe (channelId ++ ":" ++ ts) env.now 300000 = false)
    (hdeal : extractDealIdFromChannelName env.channelName = some dealId)
    (hmsg : env.histMessage = some msg)
    (hperma : env.permalink = some p)
    (hnotes : env.recentNotes = some notes)
    (hdup : notes.any (fun n => listContains p.data (jsOrStr n.content "").data) = true) :
    Action.postMessage channelId (some ts) "ℹ️ Already added to Pipedrive."
      ∈ (reactionAddedHandler cfg lstr env).1
    ∧ (∀ dl c, Action.createNoteAttempt dl c ∉ (reactionAddedHandler cfg lstr env).1)
    ∧ (reactionAddedHandler cfg lstr env).2 = env.dedupe := by
  have harch' : env.reaction ∉ cfg.archiveReactions := by simpa using harch
  have hnote' : env.reaction ∈ PD_NOTE_REACTIONS := by simpa using hnote
  have hhit : recentNotesDupHit env.recentNotes env.permalink = true := by
    rw [hnotes, hperma]
    simpa [recentNotesDupHit, jsToStr] using hdup
  have heq : reactionAddedHandler cfg lstr env
      = (noteUploadActs cfg msg
          ++ [Action.postMessage channelId (some ts) "ℹ️ Already added to Pipedrive."],
         env.dedupe) := by
    simp [reactionAddedHandler, hch, hts, harch', hnote', hrec, hdeal, hmsg, hhit]
  refine ⟨?_, ?_, ?_⟩
  · rw [heq]
    simp
  · intro dl c
    rw [heq]
    intro hmem
    rcases List.mem_append.mp hmem with hin | hin
    · exact createNote_not_mem_noteUploadActs cfg msg dl c hin
    · simp at hin
  · rw [heq]

/-- A note-relay run whose recent-notes response already carries the
permalink "https://x/y". -/
def envC4 : ReactionEnv :=
  ⟨"white_check_mark", some "C400", some "400.4", "UREACT", 1000, 2000,
   [], "deal42-acme", some ⟨some "UAUTH", some "Looks good", []⟩,
   some ⟨some "Bob", none⟩, some ⟨some "Alice", none⟩,
   some "https://x/y", some [⟨some "earlier note\nLink: https://x/y"⟩], Except.ok ⟨true, none⟩⟩

/-- Witness for C4 on a concrete duplicate run. -/
theorem C4_witness :
    Action.postMessage "C400" (some "400.4") "ℹ️ Already added to Pipedrive."
      ∈ (reactionAddedHandler defaultConfig (fun _ => "") envC4).1
    ∧ Action.createNoteAttempt "42" "anything"
        ∉ (reactionAddedHandler defaultConfig (fun _ => "") envC4).1
    ∧ (reactionAddedHandler defaultConfig (fun _ => "") envC4).2 = [] := by
  have h := C4_duplicate_suppression defaultConfig (fun _ => "") envC4
    "C400" "400.4" "42" "https://x/y" ⟨some "UAUTH", some "Looks good", []⟩
    [⟨some "earlier note\nLink: https://x/y"⟩]
    rfl rfl (by decide) (by decide) (by decide) (by decide) rfl rfl rfl (by decide)
  exact ⟨h.1, h.2.1 "42" "anything", h.2.2⟩

/-! ## Claim C10 — undefined permalink behaviour -/

theorem jsTrimS_data (s : String) : (jsTrimS s).data = jsTrimList s.data := rfl

theorem listContains_append_left (pat s t : List Char) (h : listContains pat t = true) :
    listContains pat (s ++ t) = true := by
  induction s with
  | nil => simpa using h
  | cons c cs ih =>
    rw [List.cons_append, listContains]
    simp only [Bool.or_eq_true]
    exact Or.inr ih

theorem linkUndefined_contains (tail : List Char) :
    listContains "Link: undefined".data
      ("\nLink: ".data ++ ("undefined".data ++ ("\n\n".data ++ tail))) = true := by
  have h2 : ("\nLink: ".data : List Char) = ['\n'] ++ "Link: ".data := by decide
  have h3 : ("Link: ".data : List Char) ++ "undefined".data = "Link: undefined".data := by decide
  apply listContains_of_parts _ ['\n'] ("\n\n".data ++ tail)
  rw [h2]
  simp only [List.append_assoc]
  rw [← List.append_assoc "Link: ".data "undefined".data, h3]

/-- Claim C10: when the permalink lookup failed (JS `undefined`), the
composed note's link line renders as "Link: undefined", and the recent-notes
duplicate probe tests containment of the literal text "undefined", so any
recent note containing that text makes the run report the duplicate notice
and create no note. -/
theorem C10_undefined_permalink (lstr : Nat → String) (i : NoteInput)
    (cfg : BotConfig) (env : ReactionEnv) (channelId ts dealId : String) (msg : SlackMessage)
    (notes : List PDNote)
    (hpl : i.permalink = none)
    (hch : env.itemChannel = some channelId) (hts : env.itemTs = some ts)
    (harch : cfg.archiveReactions.contains env.reaction = false)
    (hnote : PD_NOTE_REACTIONS.contains env.reaction = true)
    (hrec : recentlyNoted env.dedupe (channelId ++ ":" ++ ts) env.now 300000 = false)
    (hdeal : extractDealIdFromChannelName env.channelName = some dealId)
    (hmsg : env.histMessage = some msg)
    (henvpl : env.permalink = none)
    (hnotes : env.recentNotes = some notes)
    (hdup : notes.any (fun n => listContains "undefined".data (jsOrStr n.content "").data) = true) :
    listContains "Link: undefined".data (buildNoteFromSlack lstr i).data = true
    ∧ Action.postMessage channelId (some ts) "ℹ️ Already added to Pipedrive."
        ∈ (reactionAddedHandler cfg lstr env).1
    ∧ (∀ dl c, Action.createNoteAttempt dl c ∉ (reactionAddedHandler cfg lstr env).1) := by
  have harch' : env.reaction ∉ cfg.archiveReactions := by simpa using harch
  have hnote' : env.reaction ∈ PD_NOTE_REACTIONS := by simpa using hnote
  have hhit : recentNotesDupHit env.recentNotes env.permalink = true := by
    rw [hnotes, henvpl]
    simpa [recentNotesDupHit, jsToStr] using hdup
  have heq : reactionAddedHandler cfg lstr env
      = (noteUploadActs cfg msg
          ++ [Action.postMessage channelId (some ts) "ℹ️ Already added to Pipedrive."],
         env.dedupe) := by
    simp [reactionAddedHandler, hch, hts, harch', hnote', hrec, hdeal, hmsg, hhit]
  refine ⟨?_, ?_, ?_⟩
  · rw [buildNoteFromSlack, hpl, jsTrimS_data]
    apply listContains_jsTrimList
    · decide
    · decide
    · simp only [String.data_append, jsToStr, List.append_assoc]
      apply listContains_append_left
      apply listContains_append_left
      apply listContains_append_left
      apply listContains_append_left
      apply listContains_append_left
      apply listContains_append_left
      apply listContains_append_left
      apply listContains_append_left
      exact linkUndefined_contains (noteBody i).data
  · rw [heq]
    simp
  · intro dl c
    rw [heq]
    intro hmem
    rcases List.mem_append.mp hmem with hin | hin
    · exact createNote_not_mem_noteUploadActs cfg msg dl c hin
    · simp at hin

/-- A note-relay run whose permalink lookup failed and whose recent notes
contain the text "undefined". -/
def envC10 : ReactionEnv :=
  ⟨"white_check_mark", some "CX10", some "510.5", "UREACT", 1000, 2000,
   [], "deal42-acme", some ⟨some "UAUTH", some "Looks good", []⟩,
   some ⟨some "Bob", none⟩, some ⟨some "Alice", none⟩,
   none, some [⟨some "old note\nLink: undefined"⟩], Except.ok ⟨true, none⟩⟩

/-- The note input of a failed permalink lookup. -/
def noteInputC10 : NoteInput :=
  ⟨"deal42-acme", "Alice", "Bob", "510.5", none, "Looks good", []⟩

/-- Witness for C10: the composed note carries "Link: undefined" and the run
with a matching recent note reports the duplicate and creates nothing. -/
theorem C10_witness :
    listContains "Link: undefined".data
      (buildNoteFromSlack (fun _ => "5/1/2024, 10:00:00 AM") noteInputC10).data = true
    ∧ Action.postMessage "CX10" (some "510.5") "ℹ️ Already added to Pipedrive."
        ∈ (reactionAddedHandler defaultConfig (fun _ => "5/1/2024, 10:00:00 AM") envC10).1
    ∧ Action.createNoteAttempt "42" "anything"
        ∉ (reactionAddedHandler defaultConfig (fun _ => "5/1/2024, 10:00:00 AM") envC10).1 := by
  have h := C10_undefined_permalink (fun _ => "5/1/2024, 10:00:00 AM") noteInputC10
    defaultConfig envC10 "CX10" "510.5" "42" ⟨some "UAUTH", some "Looks good", []⟩
    [⟨some "old note\nLink: undefined"⟩]
    rfl rfl rfl (by decide) (by decide) (by decide) (by decide) rfl rfl rfl (by decide)
  exact ⟨h.1, h.2.1, h.2.2 "42" "anything"⟩

end Catfish
